import Mathlib

/-!
Shallow embedding of the Cart & Pricing Engine of the Kasir-App point-of-sale
frontend (`src/frontend/src/App.js`, `Transaction` component, lines 508-781).

Modelling conventions:
* Currency amounts and prices are rationals (`ℚ`); quantities are integers (`ℤ`).
* The payment-amount text field (a controlled HTML number input) is modelled as
  `Option ℚ`: `none` is the empty string (the value a number input exposes when
  it holds no valid numeral), `some q` a numeral string parsing to `q`.  An
  empty string is falsy in JavaScript and `parseFloat` of it is `NaN`; a
  comparison against `NaN` is `false`, which the model renders by matching on
  the option.
* React state updates (`setCart`, `setPaymentAmount`, ...) become explicit
  state passing on a `TransactionState` record.
-/

/-- Product record as served by the catalog collaborator (`GET /products`). -/
structure Product where
  id : String
  name : String
  sku : String
  price_regular : ℚ
  price_sales : ℚ
  price_bengkel : ℚ
  stock : ℤ
  min_stock : ℤ
deriving DecidableEq

/-- Customer-type record as served by `GET /customer-types`. -/
structure CustomerType where
  id : String
  name : String
  display_name : String
  discount_percentage : ℚ
deriving DecidableEq

/-- One cart line, as built by `addToCart`: the product id, the full product
record, and the quantity. -/
structure CartItem where
  product_id : String
  product : Product
  quantity : ℤ
deriving DecidableEq

/-- The cart is the `cart` React state: an ordered list of lines. -/
abbrev Cart := List CartItem

/-- Embeds `addToCart` (App.js lines 543-554): if some line already has this
product id, increment every such line's quantity by 1; otherwise append a new
line with quantity 1. -/
def addToCart (cart : Cart) (product : Product) : Cart :=
  if cart.any (fun item => item.product_id == product.id) then
    cart.map (fun item =>
      if item.product_id == product.id then
        { item with quantity := item.quantity + 1 }
      else item)
  else
    cart ++ [{ product_id := product.id, product := product, quantity := 1 }]

/-- Embeds `updateCartItem` (App.js lines 556-566): quantity ≤ 0 filters the
line out, a positive quantity overwrites the line's quantity. -/
def updateCartItem (cart : Cart) (productId : String) (quantity : ℤ) : Cart :=
  if quantity ≤ 0 then
    cart.filter (fun item => item.product_id != productId)
  else
    cart.map (fun item =>
      if item.product_id == productId then
        { item with quantity := quantity }
      else item)

/-- Embeds the removal branch of `updateCartItem` (App.js line 558), the only
line-removal operation in the source. -/
def removeLine (cart : Cart) (productId : String) : Cart :=
  cart.filter (fun item => item.product_id != productId)

/-- Embeds `setCart([])` (App.js line 620): the empty cart. -/
def clearCart : Cart := []

/-- Embeds `getPrice` (App.js lines 568-577): a switch on the customer-type
name with `price_regular` as the default branch. -/
def getPrice (product : Product) (customerType : String) : ℚ :=
  if customerType == "sales" then product.price_sales
  else if customerType == "bengkel" then product.price_bengkel
  else product.price_regular

/-- Result record of `calculateTotal`. -/
structure Totals where
  subtotal : ℚ
  discountAmount : ℚ
  total : ℚ
deriving DecidableEq

/-- The React state of the `Transaction` component that the engine reads and
writes (App.js lines 510-518). -/
structure TransactionState where
  customerTypes : List CustomerType
  cart : Cart
  selectedCustomerType : String
  paymentMethod : String
  paymentAmount : Option ℚ
  manualDiscountType : String
  manualDiscountValue : Option ℚ
deriving DecidableEq

/-- The discount percentage `calculateTotal` looks up (App.js lines 580-581):
the `discount_percentage` of the customer type whose `name` equals the
selection, or 0 when the lookup misses (`?.` plus `|| 0`). -/
def lookupDiscountPercentage (st : TransactionState) : ℚ :=
  ((st.customerTypes.find? (fun ct => ct.name == st.selectedCustomerType)).map
    (fun ct => ct.discount_percentage)).getD 0

/-- Embeds `calculateTotal` (App.js lines 579-593).  Note that the manual
discount state (`manualDiscountType`, `manualDiscountValue`) is not read. -/
def calculateTotal (st : TransactionState) : Totals :=
  let discountPercentage := lookupDiscountPercentage st
  let subtotal := st.cart.foldl
    (fun acc item => acc + getPrice item.product st.selectedCustomerType * item.quantity) 0
  let discountAmount := subtotal * (discountPercentage / 100)
  let total := subtotal - discountAmount
  { subtotal := subtotal, discountAmount := discountAmount, total := total }

/-- Embeds the `disabled` attribute of the submit button (App.js line 771):
`cart.length === 0 || !paymentAmount || parseFloat(paymentAmount) < total`,
negated.  An empty payment string is falsy; on the non-empty branch the parsed
amount is compared against the total. -/
def checkoutEnabled (cart : Cart) (total : ℚ) (paymentAmount : Option ℚ) : Bool :=
  !(cart.length == 0 || paymentAmount.isNone ||
    (match paymentAmount with
     | none => false
     | some pay => decide (pay < total)))

/-- The transaction submission payload built in `processTransaction`
(App.js lines 605-613).  These four fields are the whole object literal;
`payment_amount` is `parseFloat(paymentAmount)`, `none` standing for `NaN`. -/
structure TransactionData where
  customer_type : String
  items : List (String × ℤ)
  payment_method : String
  payment_amount : Option ℚ
deriving DecidableEq

/-- Builds the `transactionData` object of App.js lines 605-613. -/
def buildTransactionData (st : TransactionState) : TransactionData :=
  { customer_type := st.selectedCustomerType
  , items := st.cart.map (fun item => (item.product_id, item.quantity))
  , payment_method := st.paymentMethod
  , payment_amount := st.paymentAmount }

/-- Outcome of the `axios.post` to the persistence collaborator: the promise
either resolves (success) or rejects (failure, caught in the `catch` block). -/
inductive SubmitOutcome where
  | success
  | failure
deriving DecidableEq

/-- Result of one `processTransaction` call: the resulting component state,
the request sent to the collaborator (`none` when the guard returned early),
and the change displayed in the success alert (App.js line 617). -/
structure ProcessResult where
  state : TransactionState
  request : Option TransactionData
  change : Option ℚ
deriving DecidableEq

/-- The early-return guard of `processTransaction` (App.js line 599):
`payAmount < total`, where `payAmount = parseFloat(paymentAmount)`.  A `NaN`
payment (empty input) compares false, so it does not trigger the guard. -/
def paymentTooSmall (st : TransactionState) : Bool :=
  match st.paymentAmount with
  | none => false
  | some pay => decide (pay < (calculateTotal st).total)

/-- Embeds `processTransaction` (App.js lines 595-627).  When the guard does
not fire, the payload is posted.  On success the cart is cleared and the
payment amount reset (lines 620-621) and the alert shows `payAmount - total`;
on rejection the `catch` block only alerts, leaving all state untouched. -/
def processTransaction (st : TransactionState) (outcome : SubmitOutcome) : ProcessResult :=
  if paymentTooSmall st then
    { state := st, request := none, change := none }
  else
    let transactionData := buildTransactionData st
    match outcome with
    | SubmitOutcome.success =>
        { state := { st with cart := [], paymentAmount := none }
        , request := some transactionData
        , change := st.paymentAmount.map (fun pay => pay - (calculateTotal st).total) }
    | SubmitOutcome.failure =>
        { state := st, request := some transactionData, change := none }

/-- Formalisation of the totals computation exactly as claim C1 states it
(spec §4.3): tier discount and manual discount combined as independent
additive deductions, the manual term being `subtotal * value / 100` in
percentage mode and `min(value, subtotal)` in fixed-amount mode, and the
total clamped at zero.  This follows the claim's words; compare with
`calculateTotal`, which embeds the source. -/
def claimedTotals (st : TransactionState) : Totals :=
  let subtotal := st.cart.foldl
    (fun acc item => acc + getPrice item.product st.selectedCustomerType * item.quantity) 0
  let tierDiscount := subtotal * (lookupDiscountPercentage st / 100)
  let manualDiscount :=
    if st.manualDiscountType == "percentage" then
      subtotal * ((st.manualDiscountValue.getD 0) / 100)
    else if st.manualDiscountType == "amount" then
      min (st.manualDiscountValue.getD 0) subtotal
    else 0
  let discountAmount := tierDiscount + manualDiscount
  { subtotal := subtotal, discountAmount := discountAmount
  , total := max 0 (subtotal - discountAmount) }

/-- Modelled from the spec: `addLine(product, quantity)` (§4.2), whose
quantity argument is missing from the source — `addToCart` always adds
exactly 1.  The quantity argument must be a positive integer and the engine
rejects (no-op) non-positive input rather than creating a zero/negative line;
otherwise, if the product already has a line, its quantity is incremented by
`quantity`, else a new line with that quantity is appended. -/
def addLine (cart : Cart) (product : Product) (quantity : ℤ) : Cart :=
  if quantity ≤ 0 then
    cart
  else if cart.any (fun item => item.product_id == product.id) then
    cart.map (fun item =>
      if item.product_id == product.id then
        { item with quantity := item.quantity + quantity }
      else item)
  else
    cart ++ [{ product_id := product.id, product := product, quantity := quantity }]

/-- Cart invariant of the spec (§3, §4.2): at most one line per product and
every stored quantity is at least 1. -/
def cartInvariant (cart : Cart) : Prop :=
  (cart.map (fun item => item.product_id)).Nodup ∧ ∀ item ∈ cart, 1 ≤ item.quantity

instance : DecidablePred cartInvariant := fun cart => by
  unfold cartInvariant
  infer_instance

/-- Concrete product used by witnesses. -/
def sampleProduct : Product :=
  { id := "p1", name := "Oli", sku := "SKU1", price_regular := 10000
  , price_sales := 9000, price_bengkel := 8000, stock := 5, min_stock := 1 }

/-- Second concrete product used by witnesses. -/
def sampleProductB : Product :=
  { id := "p2", name := "Ban", sku := "SKU2", price_regular := 5000
  , price_sales := 4500, price_bengkel := 4000, stock := 3, min_stock := 1 }

/-- Concrete customer type (10% sales tier) used by witnesses. -/
def salesType : CustomerType :=
  { id := "ct1", name := "sales", display_name := "Sales", discount_percentage := 10 }

/-- Concrete transaction state used by witnesses: one line of two units of
`sampleProduct` at the sales tier, payment of 25000 tendered. -/
def sampleState : TransactionState :=
  { customerTypes := [salesType]
  , cart := [{ product_id := "p1", product := sampleProduct, quantity := 2 }]
  , selectedCustomerType := "sales"
  , paymentMethod := "tunai"
  , paymentAmount := some 25000
  , manualDiscountType := "none"
  , manualDiscountValue := none }

/-- Concrete state exercising the manual discount: no customer types loaded,
one unit of `sampleProduct` at the regular price, a fixed-amount manual
discount of 4000 entered. -/
def manualDiscountState : TransactionState :=
  { customerTypes := []
  , cart := [{ product_id := "p1", product := sampleProduct, quantity := 1 }]
  , selectedCustomerType := "regular"
  , paymentMethod := "tunai"
  , paymentAmount := some 10000
  , manualDiscountType := "amount"
  , manualDiscountValue := some 4000 }

/-- Concrete state whose selected customer type matches no entry of the
loaded customer-type list. -/
def unknownTypeState : TransactionState :=
  { customerTypes := [salesType]
  , cart := [{ product_id := "p1", product := sampleProduct, quantity := 3 }]
  , selectedCustomerType := "vip"
  , paymentMethod := "transfer"
  , paymentAmount := some 30000
  , manualDiscountType := "none"
  , manualDiscountValue := none }

/-! ### Helper lemmas -/

lemma map_product_id_of_preserve (cart : Cart) (g : CartItem → CartItem)
    (hg : ∀ i, (g i).product_id = i.product_id) :
    (cart.map g).map (fun i => i.product_id) = cart.map (fun i => i.product_id) := by
  rw [List.map_map]
  exact List.map_congr_left fun i _ => hg i

lemma any_pid_map_of_preserve (cart : Cart) (g : CartItem → CartItem) (pid : String)
    (hg : ∀ i, (g i).product_id = i.product_id) :
    (cart.map g).any (fun i => i.product_id == pid)
      = cart.any (fun i => i.product_id == pid) := by
  rw [List.any_map]
  congr 1
  funext i
  simp [Function.comp, hg i]

lemma cartInvariant_filter (cart : Cart) (pred : CartItem → Bool)
    (hinv : cartInvariant cart) : cartInvariant (cart.filter pred) := by
  obtain ⟨hnd, hq⟩ := hinv
  constructor
  · exact hnd.sublist (List.Sublist.map _ (List.filter_sublist cart))
  · intro i hi
    exact hq i (List.mem_of_mem_filter hi)

lemma cartInvariant_map_update (cart : Cart) (g : CartItem → CartItem)
    (hpid : ∀ i, (g i).product_id = i.product_id)
    (hqty : ∀ i ∈ cart, 1 ≤ i.quantity → 1 ≤ (g i).quantity)
    (hinv : cartInvariant cart) : cartInvariant (cart.map g) := by
  obtain ⟨hnd, hq⟩ := hinv
  constructor
  · rw [map_product_id_of_preserve cart g hpid]
    exact hnd
  · intro i hi
    obtain ⟨j, hj, rfl⟩ := List.mem_map.mp hi
    exact hqty j hj (hq j hj)

lemma processTransaction_of_guard (st : TransactionState) (o : SubmitOutcome)
    (h : paymentTooSmall st = true) :
    processTransaction st o = { state := st, request := none, change := none } := by
  unfold processTransaction
  rw [if_pos h]

lemma processTransaction_success_eq (st : TransactionState)
    (h : paymentTooSmall st = false) :
    processTransaction st SubmitOutcome.success =
      { state := { st with cart := [], paymentAmount := none }
      , request := some (buildTransactionData st)
      , change := st.paymentAmount.map (fun pay => pay - (calculateTotal st).total) } := by
  unfold processTransaction
  rw [if_neg (by simp [h])]

lemma processTransaction_failure_eq (st : TransactionState)
    (h : paymentTooSmall st = false) :
    processTransaction st SubmitOutcome.failure =
      { state := st, request := some (buildTransactionData st), change := none } := by
  unfold processTransaction
  rw [if_neg (by simp [h])]

/-! ### Theorems for the claims -/

/-- Claim C2: the price resolver returns exactly one of the product's three
tier prices — `price_sales` for the identifier "sales", `price_bengkel` for
"bengkel", and `price_regular` for every other identifier, including unknown
ones. -/
theorem getPrice_tier_selection (p : Product) (ct : String) :
    getPrice p "sales" = p.price_sales ∧
    getPrice p "bengkel" = p.price_bengkel ∧
    (ct ≠ "sales" → ct ≠ "bengkel" → getPrice p ct = p.price_regular) ∧
    (getPrice p ct = p.price_sales ∨ getPrice p ct = p.price_bengkel ∨
      getPrice p ct = p.price_regular) := by
  refine ⟨by simp [getPrice], by simp [getPrice], ?_, ?_⟩
  · intro h1 h2
    simp [getPrice, h1, h2]
  · unfold getPrice
    split
    · exact Or.inl rfl
    · split
      · exact Or.inr (Or.inl rfl)
      · exact Or.inr (Or.inr rfl)

/-- Witness for C2: an unknown customer-type id resolves to the regular
price. -/
theorem getPrice_tier_selection_witness :
    getPrice sampleProduct "vip" = sampleProduct.price_regular :=
  (getPrice_tier_selection sampleProduct "vip").2.2.1 (by decide) (by decide)

/-- Claim C6: a non-positive quantity removes the line entirely, a positive
quantity sets the line to exactly that quantity, and removing an absent
product's line leaves the cart unchanged. -/
theorem updateCartItem_semantics (cart : Cart) (pid : String) (q : ℤ) :
    (q ≤ 0 → updateCartItem cart pid q = removeLine cart pid) ∧
    (q ≤ 0 → ∀ i ∈ updateCartItem cart pid q, i.product_id ≠ pid) ∧
    (0 < q → ∀ i ∈ updateCartItem cart pid q, i.product_id = pid → i.quantity = q) ∧
    ((∀ i ∈ cart, i.product_id ≠ pid) → removeLine cart pid = cart) := by
  refine ⟨?_, ?_, ?_, ?_⟩
  · intro hq
    unfold updateCartItem removeLine
    rw [if_pos hq]
  · intro hq i hi
    unfold updateCartItem at hi
    rw [if_pos hq] at hi
    simpa [bne_iff_ne] using List.of_mem_filter hi
  · intro hq i hi hpid
    rw [updateCartItem, if_neg (by omega)] at hi
    obtain ⟨j, hj, rfl⟩ := List.mem_map.mp hi
    by_cases hjp : j.product_id = pid
    · simp [hjp]
    · simp [hjp] at hpid
  · intro h
    unfold removeLine
    apply List.filter_eq_self.mpr
    intro i hi
    simpa [bne_iff_ne] using h i hi

/-- Witness for C6: setting quantity 0 on the only line is the same as
removing it. -/
theorem updateCartItem_semantics_witness :
    updateCartItem [{ product_id := "p1", product := sampleProduct, quantity := 2 }] "p1" 0
      = removeLine [{ product_id := "p1", product := sampleProduct, quantity := 2 }] "p1" :=
  (updateCartItem_semantics _ "p1" 0).1 (by decide)

/-- Claim C9: `updateCartItem` with a positive quantity for a product id that
has no line in the cart leaves the cart entirely unchanged — it never inserts
a new line. -/
theorem updateCartItem_absent_noop (cart : Cart) (pid : String) (q : ℤ)
    (hq : 0 < q) (habs : ∀ i ∈ cart, i.product_id ≠ pid) :
    updateCartItem cart pid q = cart := by
  unfold updateCartItem
  rw [if_neg (by omega)]
  conv_rhs => rw [← List.map_id cart]
  exact List.map_congr_left fun i hi => by simp [habs i hi]

/-- Witness for C9: resizing an id that is not in the cart changes nothing. -/
theorem updateCartItem_absent_noop_witness :
    updateCartItem [{ product_id := "p1", product := sampleProduct, quantity := 2 }] "p2" 5
      = [{ product_id := "p1", product := sampleProduct, quantity := 2 }] :=
  updateCartItem_absent_noop _ "p2" 5 (by decide) (by decide)

/-- Claim C10: when the selected customer type matches no entry of the loaded
customer-type list, the discount percentage falls back to 0, so the discount
amount is 0 and the total equals the subtotal. -/
theorem unknown_customer_type_no_discount (st : TransactionState)
    (h : st.customerTypes.find? (fun ct => ct.name == st.selectedCustomerType) = none) :
    (calculateTotal st).discountAmount = 0 ∧
    (calculateTotal st).total = (calculateTotal st).subtotal := by
  simp [calculateTotal, lookupDiscountPercentage, h]

/-- Witness for C10: selecting "vip" while only the "sales" type is loaded
yields a zero discount amount. -/
theorem unknown_customer_type_no_discount_witness :
    (calculateTotal unknownTypeState).discountAmount = 0 :=
  (unknown_customer_type_no_discount unknownTypeState (by decide)).1

/-- Claim C4: every cart mutation of the source — `addToCart`,
`updateCartItem` (both branches), the removal filter, and clearing — preserves
the invariant that the cart has at most one line per product and every stored
quantity is at least 1. -/
theorem cart_mutations_preserve_invariant (cart : Cart) (p : Product)
    (pid : String) (q : ℤ) (hinv : cartInvariant cart) :
    cartInvariant (addToCart cart p) ∧ cartInvariant (updateCartItem cart pid q) ∧
    cartInvariant (removeLine cart pid) ∧ cartInvariant clearCart := by
  refine ⟨?_, ?_, ?_, ?_⟩
  · unfold addToCart
    by_cases h : cart.any (fun item => item.product_id == p.id)
    · rw [if_pos h]
      apply cartInvariant_map_update cart _ ?_ ?_ hinv
      · intro i
        dsimp only
        split <;> rfl
      · intro i _ h1
        dsimp only
        split
        · dsimp only
          omega
        · exact h1
    · rw [if_neg h]
      obtain ⟨hnd, hq⟩ := hinv
      constructor
      · rw [List.map_append]
        simp only [List.map_cons, List.map_nil, List.nodup_append, List.nodup_cons,
          List.not_mem_nil, not_false_iff, List.nodup_nil, true_and, and_true,
          List.disjoint_singleton]
        refine ⟨hnd, ?_⟩
        simp only [List.any_eq_true, not_exists, not_and] at h
        simp only [List.mem_map, not_exists, not_and]
        intro i hi hcontra
        exact absurd (beq_iff_eq.mpr hcontra) (by simpa using h i hi)
      · intro i hi
        rcases List.mem_append.mp hi with hi | hi
        · exact hq i hi
        · simp only [List.mem_singleton] at hi
          subst hi
          exact le_refl 1
  · unfold updateCartItem
    by_cases hq0 : q ≤ 0
    · rw [if_pos hq0]
      exact cartInvariant_filter cart _ hinv
    · rw [if_neg hq0]
      apply cartInvariant_map_update cart _ ?_ ?_ hinv
      · intro i
        dsimp only
        split <;> rfl
      · intro i _ h1
        dsimp only
        split
        · dsimp only
          omega
        · exact h1
  · exact cartInvariant_filter cart _ hinv
  · constructor
    · exact List.nodup_nil
    · intro i hi
      simp [clearCart] at hi

/-- Witness for C4: adding a fresh product to a one-line cart keeps the
invariant. -/
theorem cart_mutations_preserve_invariant_witness :
    cartInvariant (addToCart [{ product_id := "p1", product := sampleProduct, quantity := 2 }]
      sampleProductB) :=
  (cart_mutations_preserve_invariant _ sampleProductB "p1" 3 (by decide)).1

lemma addLine_of_any_true (c : Cart) (p : Product) (k : ℤ) (hk : 0 < k)
    (h : c.any (fun item => item.product_id == p.id) = true) :
    addLine c p k = c.map (fun item =>
      if item.product_id == p.id then { item with quantity := item.quantity + k }
      else item) := by
  unfold addLine
  rw [if_neg (by omega), if_pos h]

lemma addLine_of_any_false (c : Cart) (p : Product) (k : ℤ) (hk : 0 < k)
    (h : c.any (fun item => item.product_id == p.id) = false) :
    addLine c p k = c ++ [{ product_id := p.id, product := p, quantity := k }] := by
  unfold addLine
  rw [if_neg (by omega), if_neg (by simp [h])]

lemma addLine_addLine (c : Cart) (p : Product) (m n : ℤ) (hm : 0 < m) (hn : 0 < n) :
    addLine (addLine c p m) p n = addLine c p (m + n) := by
  by_cases h : c.any (fun item => item.product_id == p.id) = true
  · rw [addLine_of_any_true c p m hm h]
    have hpres : ∀ i : CartItem,
        ((fun item => if item.product_id == p.id then
          { item with quantity := item.quantity + m } else item) i).product_id
          = i.product_id := by
      intro i
      dsimp only
      split <;> rfl
    have hany := any_pid_map_of_preserve c _ p.id hpres
    rw [h] at hany
    rw [addLine_of_any_true _ p n hn hany, addLine_of_any_true c p (m + n) (by omega) h]
    rw [List.map_map]
    apply List.map_congr_left
    intro i _
    simp only [Function.comp]
    by_cases hip : i.product_id = p.id
    · simp [hip, add_assoc]
    · simp [hip]
  · have hf : c.any (fun item => item.product_id == p.id) = false := by
      simpa using h
    rw [addLine_of_any_false c p m hm hf]
    have hany : (c ++ [({ product_id := p.id, product := p, quantity := m } : CartItem)]).any
        (fun item => item.product_id == p.id) = true := by
      simp
    rw [addLine_of_any_true _ p n hn hany, addLine_of_any_false c p (m + n) (by omega) hf]
    rw [List.map_append]
    congr 1
    · conv_rhs => rw [← List.map_id c]
      apply List.map_congr_left
      intro i hi
      have hne : i.product_id ≠ p.id := by
        simp only [List.any_eq_false] at hf
        simpa using hf i hi
      simp [hne]
    · simp [add_comm m n]

/-- Claim C5: `addToCart` increments the existing line when the product is
already in the cart and otherwise appends a new line — it is `addLine` at
quantity 1 — and adding a product three times with quantity 1 yields the same
cart as adding it once with quantity 3. -/
theorem addToCart_repeat_eq_addLine (cart : Cart) (p : Product) :
    addToCart cart p = addLine cart p 1 ∧
    addToCart (addToCart (addToCart cart p) p) p = addLine cart p 3 := by
  have h1 : ∀ c : Cart, addToCart c p = addLine c p 1 := by
    intro c
    unfold addToCart addLine
    rw [if_neg (by norm_num : ¬(1 : ℤ) ≤ 0)]
  refine ⟨h1 cart, ?_⟩
  rw [h1, h1, h1, addLine_addLine (addLine cart p 1) p 1 1 one_pos one_pos,
    addLine_addLine cart p 1 (1 + 1) one_pos (by norm_num)]
  norm_num

/-- Claim C1 (amended): the source totals computation applies only the
customer-tier discount — `discountAmount = subtotal * discountPercentage / 100`
and `total = subtotal - discountAmount`, with no clamp at zero; the manual
discount state is never read, so changing it never changes the totals; and
`total ≤ subtotal` holds whenever the looked-up percentage and the subtotal
are non-negative. -/
theorem calculateTotal_tier_discount_only (st : TransactionState) :
    (calculateTotal st).discountAmount
      = (calculateTotal st).subtotal * (lookupDiscountPercentage st / 100) ∧
    (calculateTotal st).total
      = (calculateTotal st).subtotal - (calculateTotal st).discountAmount ∧
    (∀ t : String, ∀ v : Option ℚ,
      calculateTotal { st with manualDiscountType := t, manualDiscountValue := v }
        = calculateTotal st) ∧
    (0 ≤ lookupDiscountPercentage st → 0 ≤ (calculateTotal st).subtotal →
      (calculateTotal st).total ≤ (calculateTotal st).subtotal) := by
  refine ⟨rfl, rfl, fun t v => rfl, ?_⟩
  intro hpct hsub
  have hd : (calculateTotal st).discountAmount
      = (calculateTotal st).subtotal * (lookupDiscountPercentage st / 100) := rfl
  have ht : (calculateTotal st).total
      = (calculateTotal st).subtotal - (calculateTotal st).discountAmount := rfl
  have h0 : 0 ≤ (calculateTotal st).subtotal * (lookupDiscountPercentage st / 100) :=
    mul_nonneg hsub (div_nonneg hpct (by norm_num))
  rw [ht, hd]
  linarith

/-- Witness for C1 (amended): the sample sale's total does not exceed its
subtotal. -/
theorem calculateTotal_tier_discount_only_witness :
    (calculateTotal sampleState).total ≤ (calculateTotal sampleState).subtotal :=
  (calculateTotal_tier_discount_only sampleState).2.2.2
    (by norm_num [lookupDiscountPercentage, sampleState, salesType])
    (by norm_num [calculateTotal, lookupDiscountPercentage, getPrice, sampleState,
      salesType, sampleProduct])

/-- Counterexample to claim C1 as stated: with no tier discount, one regular
line of 10000, and a fixed-amount manual discount of 4000 entered, the claim's
formula yields a total of 6000 while the source computes 10000 — the manual
discount is not wired into `calculateTotal`. -/
theorem calculateTotal_ne_claimedTotals :
    (calculateTotal manualDiscountState).total = 10000 ∧
    (claimedTotals manualDiscountState).total = 6000 ∧
    (calculateTotal manualDiscountState).total ≠ (claimedTotals manualDiscountState).total := by
  have h1 : (calculateTotal manualDiscountState).total = 10000 := by
    simp [calculateTotal, lookupDiscountPercentage, getPrice, manualDiscountState, sampleProduct]
  have h2 : (claimedTotals manualDiscountState).total = 6000 := by
    simp [claimedTotals, lookupDiscountPercentage, getPrice, manualDiscountState, sampleProduct]
    norm_num
  refine ⟨h1, h2, ?_⟩
  rw [h1, h2]
  norm_num

/-- Claim C7: when the collaborator acknowledges the submission, the cart is
cleared and the payment amount reset and nothing else changes; when it rejects
the submission, the state is left completely unchanged. -/
theorem submit_success_resets_failure_preserves (st : TransactionState) :
    ((processTransaction st SubmitOutcome.success).request.isSome = true →
      (processTransaction st SubmitOutcome.success).state
        = { st with cart := [], paymentAmount := none }) ∧
    (processTransaction st SubmitOutcome.failure).state = st := by
  constructor
  · intro h
    by_cases hg : paymentTooSmall st = true
    · rw [processTransaction_of_guard st _ hg] at h
      simp at h
    · rw [processTransaction_success_eq st (by simpa using hg)]
  · by_cases hg : paymentTooSmall st = true
    · rw [processTransaction_of_guard st _ hg]
    · rw [processTransaction_failure_eq st (by simpa using hg)]

/-- Witness for C7: submitting the sample sale successfully clears the cart
and resets the payment amount. -/
theorem submit_success_resets_witness :
    (processTransaction sampleState SubmitOutcome.success).state
      = { sampleState with cart := [], paymentAmount := none } :=
  (submit_success_resets_failure_preserves sampleState).1
    (by norm_num [processTransaction, paymentTooSmall, buildTransactionData, calculateTotal,
      lookupDiscountPercentage, getPrice, sampleState, salesType, sampleProduct])

/-- Claim C8: any payload handed to the persistence collaborator consists of
exactly the selected customer-type identifier, the (product id, quantity)
pairs projected from the cart lines in cart order, the payment method, and
the tendered amount — and nothing else, in particular no computed totals. -/
theorem transaction_request_projection (st : TransactionState) (o : SubmitOutcome)
    (r : TransactionData) (h : (processTransaction st o).request = some r) :
    r.customer_type = st.selectedCustomerType ∧
    r.items = st.cart.map (fun item => (item.product_id, item.quantity)) ∧
    r.payment_method = st.paymentMethod ∧
    r.payment_amount = st.paymentAmount ∧
    r = { customer_type := st.selectedCustomerType
        , items := st.cart.map (fun item => (item.product_id, item.quantity))
        , payment_method := st.paymentMethod
        , payment_amount := st.paymentAmount } := by
  have hr : r = buildTransactionData st := by
    by_cases hg : paymentTooSmall st = true
    · rw [processTransaction_of_guard st o hg] at h
      simp at h
    · cases o
      · rw [processTransaction_success_eq st (by simpa using hg)] at h
        exact (Option.some.inj h).symm
      · rw [processTransaction_failure_eq st (by simpa using hg)] at h
        exact (Option.some.inj h).symm
  subst hr
  exact ⟨rfl, rfl, rfl, rfl, rfl⟩

/-- Witness for C8: the rejected sample submission carried exactly the cart's
(product id, quantity) projection. -/
theorem transaction_request_projection_witness :
    (buildTransactionData sampleState).items
      = sampleState.cart.map (fun item => (item.product_id, item.quantity)) :=
  (transaction_request_projection sampleState SubmitOutcome.failure
    (buildTransactionData sampleState)
    (by norm_num [processTransaction, paymentTooSmall, buildTransactionData, calculateTotal,
      lookupDiscountPercentage, getPrice, sampleState, salesType, sampleProduct])).2.1

/-- Claim C3: for a non-negative computed total, checkout is enabled exactly
when the cart is non-empty and the payment field holds a number that is
non-negative and at least the total; and when enabled, the change displayed on
success equals the tendered amount minus the total and is never negative. -/
theorem checkout_allowed_iff (st : TransactionState)
    (htot : 0 ≤ (calculateTotal st).total) :
    (checkoutEnabled st.cart (calculateTotal st).total st.paymentAmount = true ↔
      st.cart ≠ [] ∧ ∃ q : ℚ, st.paymentAmount = some q ∧ 0 ≤ q ∧
        (calculateTotal st).total ≤ q) ∧
    (∀ q : ℚ, st.paymentAmount = some q →
      checkoutEnabled st.cart (calculateTotal st).total st.paymentAmount = true →
      (processTransaction st SubmitOutcome.success).change
          = some (q - (calculateTotal st).total) ∧
      0 ≤ q - (calculateTotal st).total) := by
  constructor
  · cases hpay : st.paymentAmount with
    | none =>
        simp [checkoutEnabled]
    | some q =>
        simp only [checkoutEnabled, Bool.not_eq_true', Bool.or_eq_false_iff,
          beq_eq_false_iff_ne, Option.isNone_some, decide_eq_false_iff_not, not_lt,
          ne_eq, List.length_eq_zero, Bool.not_eq_false]
        constructor
        · rintro ⟨⟨hne, -⟩, hle⟩
          exact ⟨hne, q, rfl, le_trans htot hle, hle⟩
        · rintro ⟨hne, q', hq', h0, hle⟩
          obtain rfl : q = q' := Option.some.inj hq'
          exact ⟨⟨hne, by simp⟩, hle⟩
  · intro q hq hen
    have hle : (calculateTotal st).total ≤ q := by
      simp only [checkoutEnabled, hq, Bool.not_eq_true', Bool.or_eq_false_iff,
        decide_eq_false_iff_not, not_lt] at hen
      exact hen.2
    have hguard : paymentTooSmall st = false := by
      simp [paymentTooSmall, hq, not_lt, hle]
    constructor
    · rw [processTransaction_success_eq st hguard, hq]
      rfl
    · linarith

/-- Witness for C3: the sample sale (total 16200, tendered 25000) is allowed
and returns change 8800. -/
theorem checkout_allowed_iff_witness :
    (processTransaction sampleState SubmitOutcome.success).change
      = some (25000 - (calculateTotal sampleState).total) :=
  ((checkout_allowed_iff sampleState
      (by norm_num [calculateTotal, lookupDiscountPercentage, getPrice, sampleState,
        salesType, sampleProduct])).2 25000 rfl
    (by norm_num [checkoutEnabled, calculateTotal, lookupDiscountPercentage, getPrice,
      sampleState, salesType, sampleProduct])).1
